import Mathlib

/-!
Verification of the footb-ai match simulation core against its specification.

The definitions below are a shallow embedding of the Python sources:
* `src/server/services/tactical_fit_calculator.py` (TacticalFitCalculator)
* `src/server/services/simple_tactical_match.py`   (SimpleTacticalMatch)
* `src/server/services/match_service.py`           (MatchService)
* `src/server/services/match_engine.py`            (MatchEngineService)

Python floats are modelled as rationals, Python dicts of effect values as
association lists over their literal string keys (so that a missing key is
observable, as a `KeyError`), and the pseudo-random number generator as an
explicit oracle supplying each draw the code makes.  Fallible operations
return `Except PyErr`.
-/

namespace FootbAI

/-- Python-level failures observable in the embedded code: a missing dict
key (`KeyError`) and the out-of-order-call error (`RuntimeError` raised by
`MatchService.stream_second_half`, the spec's `StateError`). -/
inductive PyErr
  | keyError (key : String)
  | stateError
  deriving DecidableEq, Repr

/-- Team tag of an event: `"home"`, `"away"` or `"info"`/`"system"`. -/
inductive Team
  | home
  | away
  | info
  deriving DecidableEq, Repr

/-- Event type strings used by `MatchService`. -/
inductive EType
  | goal
  | yellow_card
  | red_card
  | substitution
  | halfTime
  | fullTime
  deriving DecidableEq, Repr

/-! ## TacticalFitCalculator (tactical_fit_calculator.py) -/

/-- A team attribute map: Python `dict` from attribute name to integer
rating; `none` models an absent key (the code then defaults to 50). -/
abbrev AttrMap : Type := String → Option ℤ

/-- Python `str.lower()` on the ASCII tactic names, written as a direct
character map (Lean's `String.toLower` computes the same string). -/
def pyLower (s : String) : String := String.mk (s.data.map Char.toLower)

/-- `TacticalFitCalculator._get_required_attributes` (lines 97-136):
target values per tactic, keyed on the lowercased tactic name; unknown
tactics yield the empty requirement set. -/
def requiredAttributes (tactic : String) : List (String × ℤ) :=
  let t := pyLower tactic
  if t = "tiki-taka" then [("passing", 90), ("dribbling", 75), ("pace", 60)]
  else if t = "gegenpressing" then [("pace", 85), ("defending", 80), ("physicality", 80)]
  else if t = "catenaccio" then [("defending", 95), ("physicality", 70), ("pace", 55)]
  else if t = "total-football" then [("passing", 80), ("dribbling", 80), ("pace", 80)]
  else if t = "park-the-bus" then [("defending", 90), ("physicality", 80), ("passing", 45)]
  else if t = "direct-play" then [("physicality", 85), ("shooting", 75), ("pace", 70)]
  else []

/-- One attribute's closeness score, `1 - abs(team_value - target)/100`,
with a value of 50 substituted for a missing attribute
(tactical_fit_calculator.py lines 87-90). -/
def attrScore (attrs : AttrMap) (a : String) (tgt : ℤ) : ℚ :=
  let v := (attrs a).getD 50
  1 - ((v - tgt).natAbs : ℚ) / 100

/-- `TacticalFitCalculator.calculate_tactical_fit` (lines 65-95): the mean
of the closeness scores over the tactic's required attributes, or 0.0 when
the tactic has no required attributes. -/
def calculate_tactical_fit (attrs : AttrMap) (tactic : String) : ℚ :=
  let req := requiredAttributes tactic
  let total : ℚ := (req.map fun p => attrScore attrs p.1 p.2).sum
  if 0 < req.length then total / (req.length : ℚ) else 0

/-- The `{positive_effect, negative_effect, penalty}` triple returned by
`TacticalFitCalculator._calculate_team_effects`. -/
structure TeamEffects where
  positive_effect : ℚ
  negative_effect : ℚ
  penalty : ℚ
  deriving DecidableEq, Repr

/-- `TacticalFitCalculator._calculate_team_effects` (lines 138-170).  Note
the guards are transcribed exactly as written in the source: the second
band tests `0.50 <= tfs < 0.79` and the third `0.40 <= tfs < 0.49`, so the
half-open intervals `[0.49, 0.50)` and `[0.79, 0.80)` fall through to the
final `else` (maximum penalty). -/
def calculateTeamEffects (tfs : ℚ) : TeamEffects :=
  if 0.80 ≤ tfs then ⟨1, 1, 0⟩
  else if 0.50 ≤ tfs ∧ tfs < 0.79 then
    ⟨(tfs - 0.5) / 0.3, (tfs - 0.5) / 0.3, 0⟩
  else if 0.40 ≤ tfs ∧ tfs < 0.49 then
    ⟨0, 0, (0.5 - tfs) / 0.1⟩
  else ⟨0, 0, 1⟩

/-- One tactic's per-statistic multiplicative deltas (one side of an entry
of `TacticalFitCalculator.tactical_effects`). -/
structure StatDelta where
  shots : ℚ
  target : ℚ
  corners : ℚ
  fouls : ℚ
  deriving DecidableEq, Repr

/-- `TacticalFitCalculator._load_tactical_effects` (lines 36-63): the
`(home side, away side)` delta pair per tactic, looked up on the lowercased
name; `none` models the `.get(tactic, {})` miss. -/
def tacticalEffects (tactic : String) : Option (StatDelta × StatDelta) :=
  let t := pyLower tactic
  if t = "tiki-taka" then
    some (⟨0.08, 0.10, 0.12, -0.05⟩, ⟨-0.10, -0.12, -0.10, -0.05⟩)
  else if t = "gegenpressing" then
    some (⟨0.15, 0.18, 0.05, 0.10⟩, ⟨-0.15, -0.15, -0.08, 0.10⟩)
  else if t = "catenaccio" then
    some (⟨-0.10, -0.10, -0.15, -0.10⟩, ⟨-0.05, -0.05, -0.10, -0.02⟩)
  else if t = "total-football" then
    some (⟨0.12, 0.12, 0.10, 0.0⟩, ⟨-0.10, -0.10, -0.05, 0.0⟩)
  else if t = "park-the-bus" then
    some (⟨-0.12, -0.10, -0.10, -0.15⟩, ⟨-0.05, -0.05, -0.05, -0.10⟩)
  else if t = "direct-play" then
    some (⟨0.20, 0.15, 0.08, 0.05⟩, ⟨-0.02, -0.02, -0.05, 0.05⟩)
  else none

/-- The per-match baseline means the calculator reads from `self.stats`. -/
structure StatsTable where
  homeShots : ℚ
  homeTarget : ℚ
  homeCorners : ℚ
  homeFouls : ℚ
  awayShots : ℚ
  awayTarget : ℚ
  awayCorners : ℚ
  awayFouls : ℚ
  deriving DecidableEq, Repr

/-- The hardcoded fallback table of `_load_match_statistics` (lines 23-34),
used when `match_statistics.json` is absent (the data file is not part of
the repository's `services` tree). -/
def defaultStats : StatsTable :=
  ⟨12.76, 5.12, 5.67, 12.62, 10.41, 4.14, 4.62, 13.08⟩

/-- Home-side delta for a tactic: `.get(tactic.lower(), {}).get("home", {})`
with `.get(key, 0)` per statistic. -/
def homeDelta (tactic : String) : StatDelta :=
  ((tacticalEffects tactic).map Prod.fst).getD ⟨0, 0, 0, 0⟩

/-- Away-side delta for a tactic. -/
def awayDelta (tactic : String) : StatDelta :=
  ((tacticalEffects tactic).map Prod.snd).getD ⟨0, 0, 0, 0⟩

/-- Home team's adjusted shots, `stats["HomeShots"]["mean"] * (1 + delta)`. -/
def homeShotsFor (stats : StatsTable) (tactic : String) : ℚ :=
  stats.homeShots * (1 + (homeDelta tactic).shots)

/-- Home team's adjusted shots on target. -/
def homeTargetFor (stats : StatsTable) (tactic : String) : ℚ :=
  stats.homeTarget * (1 + (homeDelta tactic).target)

/-- Away team's adjusted shots. -/
def awayShotsFor (stats : StatsTable) (tactic : String) : ℚ :=
  stats.awayShots * (1 + (awayDelta tactic).shots)

/-- Away team's adjusted shots on target. -/
def awayTargetFor (stats : StatsTable) (tactic : String) : ℚ :=
  stats.awayTarget * (1 + (awayDelta tactic).target)

/-- Python dict access on an effects dict, by key string, in insertion
order; `none` is the missing-key case. -/
def lookupEff : List (String × ℚ) → String → Option ℚ
  | [], _ => none
  | (k, v) :: rest, key => if key = k then some v else lookupEff rest key

/-- Dict access that raises: `effects[key]` in Python. -/
def getKey (effects : List (String × ℚ)) (key : String) : Except PyErr ℚ :=
  match lookupEff effects key with
  | some v => Except.ok v
  | none => Except.error (PyErr.keyError key)

/-- `TacticalFitCalculator.calculate_match_effects` (lines 172-232): builds
the home and away effect dicts.  The keys are exactly the ones the source
inserts, in insertion order: the three band effects, the four adjusted
statistics, and `goal_probability` appended at lines 229-230. -/
def calculate_match_effects (stats : StatsTable) (home_tfs away_tfs : ℚ)
    (home_tactic away_tactic : String) : List (String × ℚ) × List (String × ℚ) :=
  let hb := calculateTeamEffects home_tfs
  let ab := calculateTeamEffects away_tfs
  let hShots := homeShotsFor stats home_tactic
  let hTarget := homeTargetFor stats home_tactic
  let hCorners := stats.homeCorners * (1 + (homeDelta home_tactic).corners)
  let hFouls := stats.homeFouls * (1 + (homeDelta home_tactic).fouls)
  let aShots := awayShotsFor stats away_tactic
  let aTarget := awayTargetFor stats away_tactic
  let aCorners := stats.awayCorners * (1 + (awayDelta away_tactic).corners)
  let aFouls := stats.awayFouls * (1 + (awayDelta away_tactic).fouls)
  let hGoal := hShots / 90 * (hTarget / hShots) * (1 + hb.positive_effect) * (1 - hb.penalty)
  let aGoal := aShots / 90 * (aTarget / aShots) * (1 + ab.positive_effect) * (1 - ab.penalty)
  ([("positive_effect", hb.positive_effect), ("negative_effect", hb.negative_effect),
    ("penalty", hb.penalty), ("shots", hShots), ("target", hTarget),
    ("corners", hCorners), ("fouls", hFouls), ("goal_probability", hGoal)],
   [("positive_effect", ab.positive_effect), ("negative_effect", ab.negative_effect),
    ("penalty", ab.penalty), ("shots", aShots), ("target", aTarget),
    ("corners", aCorners), ("fouls", aFouls), ("goal_probability", aGoal)])

/-! ## SimpleTacticalMatch (simple_tactical_match.py) -/

/-- Running score, `{"home": int, "away": int}`. -/
structure Score where
  home : ℕ
  away : ℕ
  deriving DecidableEq, Repr

/-- Increment the given side of the score; the `"info"` tag never scores. -/
def bumpScore (sc : Score) : Team → Score
  | Team.home => { sc with home := sc.home + 1 }
  | Team.away => { sc with away := sc.away + 1 }
  | Team.info => sc

/-- An event dict built by `SimpleTacticalMatch._create_event`: minute,
team, type and the score attached at creation time. -/
structure SEvent where
  minute : ℕ
  team : Team
  etype : EType
  score : Score
  deriving DecidableEq, Repr

/-- The six `self._rng.random()` draws `_generate_events_for_minute` makes
in one minute (two goal checks, two yellow checks, two red checks). -/
structure MinuteDraws where
  u1 : ℚ
  u2 : ℚ
  u3 : ℚ
  u4 : ℚ
  u5 : ℚ
  u6 : ℚ

/-- The mutable fields of a `SimpleTacticalMatch` that the streaming code
reads: the two effect dicts, the cached event lists and the score. -/
structure SimpleSession where
  homeEffects : List (String × ℚ)
  awayEffects : List (String × ℚ)
  firstHalfEvents : List SEvent
  secondHalfEvents : List SEvent
  score : Score

/-- `SimpleTacticalMatch.__init__` (lines 18-86): computes both fit scores
and the effect dicts via the calculator; event caches start empty and the
score at 0-0. -/
def mkSimpleSession (hAttrs aAttrs : AttrMap) (hTactic aTactic : String) : SimpleSession :=
  let htfs := calculate_tactical_fit hAttrs hTactic
  let atfs := calculate_tactical_fit aAttrs aTactic
  let eff := calculate_match_effects defaultStats htfs atfs hTactic aTactic
  ⟨eff.1, eff.2, [], [], ⟨0, 0⟩⟩

/-- `SimpleTacticalMatch._generate_events_for_minute` (lines 118-147),
with each dict access made explicit: it reads `goal_probability`,
`yellow_card_probability` and `red_card_probability` from both effect
dicts, raising `KeyError` on the first missing key. -/
def generateEventsForMinute (he ae : List (String × ℚ)) (sc : Score)
    (minute : ℕ) (isLast : Bool) (d : MinuteDraws) : Except PyErr (List SEvent) := do
  let hGoal ← getKey he "goal_probability"
  let aGoal ← getKey ae "goal_probability"
  let goalEvents :=
    (if d.u1 < hGoal then [SEvent.mk minute Team.home EType.goal sc] else []) ++
    (if d.u2 < aGoal then [SEvent.mk minute Team.away EType.goal sc] else [])
  let hYellow ← getKey he "yellow_card_probability"
  let aYellow ← getKey ae "yellow_card_probability"
  let yellowEvents :=
    (if d.u3 < hYellow then [SEvent.mk minute Team.home EType.yellow_card sc] else []) ++
    (if d.u4 < aYellow then [SEvent.mk minute Team.away EType.yellow_card sc] else [])
  let hRed ← getKey he "red_card_probability"
  let aRed ← getKey ae "red_card_probability"
  let redEvents :=
    (if d.u5 < hRed then [SEvent.mk minute Team.home EType.red_card sc] else []) ++
    (if d.u6 < aRed then [SEvent.mk minute Team.away EType.red_card sc] else [])
  let marker :=
    if isLast then
      if minute = 45 then [SEvent.mk minute Team.info EType.halfTime sc]
      else if minute = 90 then [SEvent.mk minute Team.info EType.fullTime sc]
      else []
    else []
  pure (goalEvents ++ yellowEvents ++ redEvents ++ marker)

/-- Loop of `_generate_first_half_events`/`_generate_second_half_events`:
runs `_generate_events_for_minute` for `n` consecutive minutes starting at
`startMin`, concatenating the results; the first raised error aborts. -/
def generateHalfEvents (he ae : List (String × ℚ)) (sc : Score) (lastMin : ℕ)
    (o : ℕ → MinuteDraws) : ℕ → ℕ → Except PyErr (List SEvent)
  | 0, _ => pure []
  | n + 1, startMin => do
    let evs ← generateEventsForMinute he ae sc startMin (startMin = lastMin) (o startMin)
    let rest ← generateHalfEvents he ae sc lastMin o n (startMin + 1)
    pure (evs ++ rest)

/-- Stable insertion into a key-sorted list: the new element goes after all
existing elements with key less than or equal to its own, which is how
Python's stable `list.sort` orders ties (insertion order preserved). -/
def insertByKey {α : Type} (key : α → ℕ) (e : α) : List α → List α
  | [] => [e]
  | x :: xs => if key x ≤ key e then x :: insertByKey key e xs else e :: x :: xs

/-- Stable sort by key, the embedding of Python `list.sort(key=...)`. -/
def sortByKey {α : Type} (key : α → ℕ) (l : List α) : List α :=
  l.foldl (fun acc e => insertByKey key e acc) []

/-- A line yielded by the `SimpleTacticalMatch` streaming generators:
either a minute update carrying the running score, or an event with the
score written into it at emission time (line 222 / 256). -/
inductive SimpleOut
  | minuteUpdate (minute : ℕ) (score : Score)
  | eventOut (ev : SEvent) (score : Score)
  deriving DecidableEq, Repr

/-- The per-event streaming loop shared by both halves of
`SimpleTacticalMatch` (lines 201-223 and 235-257): emit minute updates up
to the event's minute, bump the score on goals, then emit the event with
the updated score attached. -/
def simpleStreamLoop : List SEvent → ℕ → Score → List SimpleOut
  | [], _, _ => []
  | ev :: rest, curMin, sc =>
    let ticks := (List.range (ev.minute - curMin)).map
      fun i => SimpleOut.minuteUpdate (curMin + i + 1) sc
    let sc2 := if ev.etype = EType.goal then bumpScore sc ev.team else sc
    ticks ++ SimpleOut.eventOut { ev with score := sc2 } sc2 ::
      simpleStreamLoop rest (max curMin ev.minute) sc2

/-- `SimpleTacticalMatch.stream_first_half` (lines 175-223): generates the
first-half events on demand (minutes 1-45), then streams them from minute
0 and score 0-0.  Note there is no state check of any kind. -/
def simpleStreamFirstHalf (sess : SimpleSession) (o : ℕ → MinuteDraws) :
    Except PyErr (List SimpleOut) := do
  let evs ←
    if sess.firstHalfEvents.isEmpty then
      generateHalfEvents sess.homeEffects sess.awayEffects sess.score 45 o 45 1
    else pure sess.firstHalfEvents
  pure (simpleStreamLoop (sortByKey SEvent.minute evs) 0 ⟨0, 0⟩)

/-- `SimpleTacticalMatch.stream_second_half` (lines 225-257): generates the
second-half events on demand (minutes 46-90) and streams them from minute
45.  There is no half-time guard: a fresh session goes straight into
generation. -/
def simpleStreamSecondHalf (sess : SimpleSession) (o : ℕ → MinuteDraws) :
    Except PyErr (List SimpleOut) := do
  let evs ←
    if sess.secondHalfEvents.isEmpty then
      generateHalfEvents sess.homeEffects sess.awayEffects sess.score 90 o 45 46
    else pure sess.secondHalfEvents
  pure (simpleStreamLoop (sortByKey SEvent.minute evs) 45 sess.score)

/-! ## MatchService (match_service.py) -/

/-- A raw event as built by `MatchService._event`: minute, team, type (the
description/commentary are external enrichment and carry no state). -/
structure MEvent where
  minute : ℕ
  team : Team
  etype : EType
  deriving DecidableEq, Repr

/-- Per-team statistics dict of `MatchService._initialize_stats` plus the
card counters `_update_stats` adds on first use.  Counter values are
integers in Python (`int(...)` results); possession is a float. -/
structure TeamSideStats where
  possession : ℚ
  shots : ℤ
  shotsOnTarget : ℤ
  corners : ℤ
  fouls : ℤ
  yellowCards : ℕ
  redCards : ℕ
  deriving DecidableEq, Repr

/-- Both teams' statistics, `self._stats`. -/
structure MatchStatsState where
  home : TeamSideStats
  away : TeamSideStats
  deriving DecidableEq, Repr

/-- `MatchService._initialize_stats` (lines 265-282): everything at zero. -/
def initStats : MatchStatsState :=
  ⟨⟨0, 0, 0, 0, 0, 0, 0⟩, ⟨0, 0, 0, 0, 0, 0, 0⟩⟩

/-- Score plus statistics: the mutable match state the stream updates. -/
structure MSState where
  score : Score
  stats : MatchStatsState
  deriving DecidableEq, Repr

/-- The parameters `_update_stats` reads.  A fresh `MatchService` without a
stats backend never sets the `stats_backend` attribute, so `hasattr(self,
'stats_backend')` is false and the simple linear-progression branch runs;
these are the class constants, possibly adjusted from team attributes. -/
structure MSParams where
  possessionHome : ℚ
  shotsHome : ℚ
  shotsAway : ℚ
  targetHome : ℚ
  targetAway : ℚ
  cornersHome : ℚ
  cornersAway : ℚ
  foulsHome : ℚ
  foulsAway : ℚ

/-- The class-constant defaults of `MatchService` (lines 93-106). -/
def defaultMSParams : MSParams :=
  ⟨52, 12, 10, 5, 4, 6, 5, 8, 9⟩

/-- Python `int(q)`: truncation toward zero. -/
def pyTrunc (q : ℚ) : ℤ :=
  Int.sign q.num * ((q.num.natAbs / q.den : ℕ) : ℤ)

/-- Python `max(0, min(100, q))`, the possession clamp of
`_normalize_stats`. -/
def clamp100 (q : ℚ) : ℚ := max 0 (min 100 q)

/-- `MatchService._normalize_stats` (lines 509-517): clamp each possession
into `[0, 100]` and clamp shots-on-target to shots for both teams. -/
def normalizeStats (s : MatchStatsState) : MatchStatsState :=
  { home := { s.home with
      possession := clamp100 s.home.possession,
      shotsOnTarget := min s.home.shotsOnTarget s.home.shots },
    away := { s.away with
      possession := clamp100 s.away.possession,
      shotsOnTarget := min s.away.shotsOnTarget s.away.shots } }

/-- `MatchService._update_progressive_stats` (lines 498-507), fallback
branch: each progressing counter is set to `int(PARAM * progress)`. -/
def progressiveStats (P : MSParams) (progress : ℚ) (s : MatchStatsState) : MatchStatsState :=
  { home := { s.home with
      shots := pyTrunc (P.shotsHome * progress),
      shotsOnTarget := pyTrunc (P.targetHome * progress),
      corners := pyTrunc (P.cornersHome * progress),
      fouls := pyTrunc (P.foulsHome * progress) },
    away := { s.away with
      shots := pyTrunc (P.shotsAway * progress),
      shotsOnTarget := pyTrunc (P.targetAway * progress),
      corners := pyTrunc (P.cornersAway * progress),
      fouls := pyTrunc (P.foulsAway * progress) } }

/-- Apply an update to one side of the stats. -/
def onSide (s : MatchStatsState) (t : Team) (f : TeamSideStats → TeamSideStats) :
    MatchStatsState :=
  match t with
  | Team.home => { s with home := f s.home }
  | Team.away => { s with away := f s.away }
  | Team.info => s

/-- `MatchService._update_stats` (lines 435-460): resets possession to the
baseline plus the `uniform(-2, 2)` jitter (away derived by subtraction),
then branches on the event type - goals bump shots, shots on target and
the score; cards bump their counters; anything else runs the progressive
update - and finally normalizes. -/
def updateStats (P : MSParams) (jitter : ℚ) (ev : MEvent) (st : MSState) : MSState :=
  let progress : ℚ := (ev.minute : ℚ) / 90
  let possHome := P.possessionHome + jitter
  let s1 : MatchStatsState :=
    { home := { st.stats.home with possession := possHome },
      away := { st.stats.away with possession := 100 - possHome } }
  let next : Score × MatchStatsState :=
    match ev.etype with
    | EType.goal =>
        (bumpScore st.score ev.team,
         onSide s1 ev.team fun ts =>
           { ts with shots := ts.shots + 1, shotsOnTarget := ts.shotsOnTarget + 1 })
    | EType.yellow_card =>
        (st.score, onSide s1 ev.team fun ts => { ts with yellowCards := ts.yellowCards + 1 })
    | EType.red_card =>
        (st.score, onSide s1 ev.team fun ts => { ts with redCards := ts.redCards + 1 })
    | _ => (st.score, progressiveStats P progress s1)
  ⟨next.1, normalizeStats next.2⟩

/-- Score attachment pass of `MatchService._generate_timeline_chunk`
(lines 661-665): walk the sorted events, bump the running `_current_score`
at each goal and attach a copy of it to every event.  Returns the attached
list and the mutated score. -/
def attachScores : List MEvent → Score → List (MEvent × Score) × Score
  | [], sc => ([], sc)
  | e :: rest, sc =>
    let sc1 := if e.etype = EType.goal then bumpScore sc e.team else sc
    let t := attachScores rest sc1
    ((e, sc1) :: t.1, t.2)

/-- The draws consumed per yellow card in `_simulate_yellows_reds_chunk`:
the chosen minute, the `random()` value compared against
`RED_PROB_AFTER_YELLOW`, and the `randint` result for the red's minute. -/
structure YellowDraw where
  minute : ℕ
  redRoll : ℚ
  redMinute : ℕ

/-- The oracle for one `_generate_timeline_chunk` call: the Poisson counts
(`int(poisson(lam * ratio))` results), each event's chosen minute, the
red-card rolls, the substitution counts computed at line 757, and the
injury-time draw.  A Poisson draw at rate 0 is always 0, so a match with
yellow-card lambda 0 has both yellow counts equal to 0. -/
structure ChunkOracle where
  nGoalsHome : ℕ
  nGoalsAway : ℕ
  goalMinHome : ℕ → ℕ
  goalMinAway : ℕ → ℕ
  nYellowHome : ℕ
  nYellowAway : ℕ
  yellowHome : ℕ → YellowDraw
  yellowAway : ℕ → YellowDraw
  redProb : ℚ
  nSubsHome : ℕ
  nSubsAway : ℕ
  subMinHome : ℕ → ℕ
  subMinAway : ℕ → ℕ
  extra : ℕ

/-- Goal events for one team in `_simulate_goals_chunk` (lines 725-730):
`n` goal events at the oracle-chosen minutes, in draw order. -/
def simulateGoalsTeam (t : Team) (mins : ℕ → ℕ) : ℕ → List MEvent
  | 0 => []
  | n + 1 => MEvent.mk (mins 0) t EType.goal ::
      simulateGoalsTeam t (fun i => mins (i + 1)) n

/-- Yellow/red events for one team in `_simulate_yellows_reds_chunk`
(lines 737-749): each yellow card is followed by a red card exactly when
its `random()` roll is below `RED_PROB_AFTER_YELLOW`. -/
def simulateYellowsTeam (t : Team) (redProb : ℚ) (d : ℕ → YellowDraw) : ℕ → List MEvent
  | 0 => []
  | n + 1 =>
    let dr := d 0
    (MEvent.mk dr.minute t EType.yellow_card ::
      (if dr.redRoll < redProb then [MEvent.mk dr.redMinute t EType.red_card] else [])) ++
    simulateYellowsTeam t redProb (fun i => d (i + 1)) n

/-- Substitution events for one team in `_simulate_substitutions_chunk`. -/
def simulateSubsTeam (t : Team) (mins : ℕ → ℕ) : ℕ → List MEvent
  | 0 => []
  | n + 1 => MEvent.mk (mins 0) t EType.substitution ::
      simulateSubsTeam t (fun i => mins (i + 1)) n

/-- The raw event list `_generate_timeline_chunk` assembles (lines
645-656): goals, then yellows/reds, then substitutions (home before away
in each), then the static markers that fall inside the chunk. -/
def rawChunkEvents (o : ChunkOracle) (startMin endMin : ℕ) : List MEvent :=
  simulateGoalsTeam Team.home o.goalMinHome o.nGoalsHome ++
  simulateGoalsTeam Team.away o.goalMinAway o.nGoalsAway ++
  simulateYellowsTeam Team.home o.redProb o.yellowHome o.nYellowHome ++
  simulateYellowsTeam Team.away o.redProb o.yellowAway o.nYellowAway ++
  simulateSubsTeam Team.home o.subMinHome o.nSubsHome ++
  simulateSubsTeam Team.away o.subMinAway o.nSubsAway ++
  (if startMin ≤ 45 ∧ 45 ≤ endMin then [MEvent.mk 45 Team.info EType.halfTime] else []) ++
  (if startMin ≤ 90 ∧ 90 ≤ endMin then [MEvent.mk (90 + o.extra) Team.info EType.fullTime]
   else [])

/-- `MatchService._generate_timeline_chunk` (lines 640-699): assemble the
raw events, sort them by minute (stable), then attach running scores,
mutating `self._current_score` as a side effect. -/
def generateChunk (o : ChunkOracle) (startMin endMin : ℕ) (sc : Score) :
    List (MEvent × Score) × Score :=
  attachScores (sortByKey MEvent.minute (rawChunkEvents o startMin endMin)) sc

/-- A line yielded by `MatchService.stream_first_half`/`stream_second_half`:
a minute update carrying the current `_current_score` and `_stats`, or an
event carrying its generation-time score and the post-update stats. -/
inductive StreamOut
  | minuteUpdate (minute : ℕ) (score : Score) (stats : MatchStatsState)
  | eventOut (ev : MEvent) (genScore : Score) (stats : MatchStatsState)
  deriving DecidableEq, Repr

/-- The streaming loop shared by both halves (lines 313-332 and 347-363):
before each event, emit one minute update per elapsed minute showing the
current score and stats; then process the event through `_update_stats`
(which bumps the score again for goals) and emit it with its
generation-time score and post-update stats.  In the first half the loop
breaks at the first event past the `cut` minute. -/
def streamEvents (P : MSParams) (jit : ℕ → ℚ) (cut : Option ℕ) :
    List (MEvent × Score) → ℕ → ℕ → MSState → List StreamOut × MSState
  | [], _, _, st => ([], st)
  | (e, gsc) :: rest, curMin, k, st =>
    if (match cut with | some c => decide (c < e.minute) | none => false) then
      ([], st)
    else
      let ticks := (List.range (e.minute - curMin)).map
        fun i => StreamOut.minuteUpdate (curMin + i + 1) st.score st.stats
      let st2 := updateStats P (jit k) e st
      let t := streamEvents P jit cut rest (max curMin e.minute) (k + 1) st2
      (ticks ++ StreamOut.eventOut e gsc st2.stats :: t.1, t.2)

/-- `MatchService.stream_first_half` on a fresh service (lines 303-335):
generate the chunk for minutes 0-45 (this already advances
`_current_score` once per goal), then stream it from minute 0 with the
already-advanced score, updating the score a second time per goal through
`_update_stats`. -/
def firstHalfPipeline (o : ChunkOracle) (P : MSParams) (jit : ℕ → ℚ) :
    List StreamOut × MSState :=
  let st0 : MSState := ⟨⟨0, 0⟩, initStats⟩
  let gen := generateChunk o 0 45 st0.score
  streamEvents P jit (some 45) gen.1 0 0 ⟨gen.2, st0.stats⟩

/-- The `MatchService` state the second-half guard reads. -/
structure MSSession where
  isHalfTime : Bool
  state : MSState

/-- `MatchService.stream_second_half` (lines 337-363): raises the state
error (`RuntimeError("Second half requested before half-time.")`) unless
`self._is_half_time` was set by a completed first half; otherwise
generates the 45-90 chunk and streams it from minute 45. -/
def msStreamSecondHalf (sess : MSSession) (o : ChunkOracle) (P : MSParams)
    (jit : ℕ → ℚ) : Except PyErr (List StreamOut × MSState) :=
  if sess.isHalfTime = false then Except.error PyErr.stateError
  else
    let gen := generateChunk o 45 90 sess.state.score
    Except.ok (streamEvents P jit none gen.1 45 0 ⟨gen.2, sess.state.stats⟩)

/-! ## MatchEngineService (match_engine.py) -/

/-- The per-team counters `generate_simple_events` tracks. -/
structure EngTeamStats where
  shots : ℕ
  shotsOnTarget : ℕ
  yellowCards : ℕ
  redCards : ℕ
  deriving DecidableEq, Repr

/-- Both teams' engine counters. -/
structure EngStats where
  home : EngTeamStats
  away : EngTeamStats
  deriving DecidableEq, Repr

/-- A line appended to `events_json` by `generate_simple_events`: a mapped
event, the per-minute update, or a system (half-time/full-time) event.
Event types are the literal strings the source uses. -/
inductive EngOut
  | eventOut (minute : ℕ) (team : Team) (etype : String) (score : Score) (stats : EngStats)
  | minuteUpdate (minute : ℕ) (score : Score) (stats : EngStats)
  | systemEvent (minute : ℕ) (etype : String) (score : Score) (stats : EngStats)
  deriving DecidableEq, Repr

/-- The `event_mapping` table of `generate_simple_events` (lines 220-229):
only shot, target, goal and yellow-card strings are mapped; any other
event string (including `"Red_Home"`/`"Red_Away"` produced by
`simulate_half`) is silently skipped. -/
def engEventInfo (s : String) : Option (String × Team) :=
  if s = "Shots_Home" then some ("shot", Team.home)
  else if s = "Shots_Away" then some ("shot", Team.away)
  else if s = "Target_Home" then some ("target", Team.home)
  else if s = "Target_Away" then some ("target", Team.away)
  else if s = "Goals_Home" then some ("goal", Team.home)
  else if s = "Goals_Away" then some ("goal", Team.away)
  else if s = "Yellow_Home" then some ("yellow_card", Team.home)
  else if s = "Yellow_Away" then some ("yellow_card", Team.away)
  else none

/-- Counter update of `generate_simple_events` (lines 251-263): shot and
target events bump their own counters independently; goals bump the
score only. -/
def engApply (etype : String) (t : Team) (sc : Score) (st : EngStats) :
    Score × EngStats :=
  let side : EngTeamStats := match t with
    | Team.home => st.home
    | Team.away => st.away
    | Team.info => st.home
  let side2 :=
    if etype = "shot" then { side with shots := side.shots + 1 }
    else if etype = "target" then { side with shotsOnTarget := side.shotsOnTarget + 1 }
    else if etype = "yellow_card" then { side with yellowCards := side.yellowCards + 1 }
    else if etype = "red_card" then { side with redCards := side.redCards + 1 }
    else side
  let st2 : EngStats := match t with
    | Team.home => { st with home := side2 }
    | Team.away => { st with away := side2 }
    | Team.info => st
  let sc2 := if etype = "goal" then bumpScore sc t else sc
  (sc2, st2)

/-- Inner loop of `generate_simple_events` over one minute's event strings
(lines 246-280): mapped events update score/stats and are emitted with a
post-update snapshot; unmapped strings are skipped. -/
def engMinuteEvents (minute : ℕ) : List String → Score → EngStats →
    List EngOut × Score × EngStats
  | [], sc, st => ([], sc, st)
  | s :: rest, sc, st =>
    match engEventInfo s with
    | none => engMinuteEvents minute rest sc st
    | some (etype, t) =>
      let u := engApply etype t sc st
      let r := engMinuteEvents minute rest u.1 u.2
      (EngOut.eventOut minute t etype u.1 u.2 :: r.1, r.2)

/-- Outer loop of `generate_simple_events` over the sorted minutes (lines
236-333): per minute, the mapped events, then one minute update, then a
half-time (minute 45) or full-time (minute 90) system event.  Commentary
attachment (`add_events`) only decorates lines and is external enrichment,
so it is omitted. -/
def engGenerateAux : List (ℕ × List String) → Score → EngStats → List EngOut
  | [], _, _ => []
  | (minute, strs) :: rest, sc, st =>
    let r := engMinuteEvents minute strs sc st
    let sc2 := r.2.1
    let st2 := r.2.2
    let markers :=
      if minute = 45 then [EngOut.systemEvent 45 "half-time" sc2 st2]
      else if minute = 90 then [EngOut.systemEvent 90 "full-time" sc2 st2]
      else []
    r.1 ++ EngOut.minuteUpdate minute sc2 st2 :: markers ++ engGenerateAux rest sc2 st2

/-- `MatchEngineService.generate_simple_events` (lines 193-335): process
the event dictionary in ascending minute order starting from the given
context score and stats. -/
def engGenerateSimpleEvents (eventDict : List (ℕ × List String)) (sc : Score)
    (st : EngStats) : List EngOut :=
  engGenerateAux (sortByKey Prod.fst eventDict) sc st

/-! ## Checkers and concrete instances used by the theorems -/

/-- The stats snapshot a streamed line carries. -/
def statsOfOut : StreamOut → MatchStatsState
  | StreamOut.minuteUpdate _ _ st => st
  | StreamOut.eventOut _ _ st => st

/-- Sum of the two possession figures in a snapshot. -/
def possSum (s : MatchStatsState) : ℚ := s.home.possession + s.away.possession

/-- Score-event consistency check: walking the emitted lines while
counting goal events, every minute update must show exactly the goals
emitted so far and every event must carry the count including itself. -/
def scoreConsistentAux : List StreamOut → Score → Bool
  | [], _ => true
  | StreamOut.minuteUpdate _ sc _ :: rest, c =>
    decide (sc = c) && scoreConsistentAux rest c
  | StreamOut.eventOut e gsc _ :: rest, c =>
    let c2 := if e.etype = EType.goal then bumpScore c e.team else c
    decide (gsc = c2) && scoreConsistentAux rest c2

/-- Score-event consistency over a whole stream starting from 0-0. -/
def scoreConsistent (outs : List StreamOut) : Bool :=
  scoreConsistentAux outs ⟨0, 0⟩

/-- Count of goal events per team among the emitted lines. -/
def emittedGoals : List StreamOut → Score
  | [] => ⟨0, 0⟩
  | StreamOut.eventOut e _ _ :: rest =>
    let c := emittedGoals rest
    if e.etype = EType.goal then bumpScore c e.team else c
  | _ :: rest => emittedGoals rest

/-- No red-card event among score-attached chunk events. -/
def chunkNoRed (l : List (MEvent × Score)) : Prop :=
  ∀ p ∈ l, p.1.etype ≠ EType.red_card

/-- The event-type string of an engine output line (minute updates are
typed `"minute_update"`). -/
def engTypeOf : EngOut → String
  | EngOut.eventOut _ _ t _ _ => t
  | EngOut.minuteUpdate _ _ _ => "minute_update"
  | EngOut.systemEvent _ t _ _ => t

/-- The stats snapshot of an engine output line. -/
def engStatsOf : EngOut → EngStats
  | EngOut.eventOut _ _ _ _ st => st
  | EngOut.minuteUpdate _ _ st => st
  | EngOut.systemEvent _ _ _ st => st

/-- No red-card event among engine output lines. -/
def engNoRed (outs : List EngOut) : Prop :=
  ∀ o ∈ outs, engTypeOf o ≠ "red_card"

/-- Shots-on-target never exceeding shots, across engine snapshots. -/
def engSotOk (outs : List EngOut) : Bool :=
  outs.all fun o =>
    decide ((engStatsOf o).home.shotsOnTarget ≤ (engStatsOf o).home.shots) &&
    decide ((engStatsOf o).away.shotsOnTarget ≤ (engStatsOf o).away.shots)

/-- An attribute map whose six ratings are all 250, far outside the
nominal 0-100 range, as the spec admits for source data. -/
def attrsAll250 : AttrMap := fun _ => some 250

/-- An attribute map with every rating 50. -/
def attrsAll50 : AttrMap := fun _ => some 50

/-- The home attributes of the spec's end-to-end scenario. -/
def scenarioHomeAttrs : AttrMap := fun s =>
  if s = "passing" then some 90 else if s = "dribbling" then some 75
  else if s = "pace" then some 60 else if s = "shooting" then some 70
  else if s = "defending" then some 60 else if s = "physicality" then some 60
  else none

/-- The away attributes of the spec's end-to-end scenario. -/
def scenarioAwayAttrs : AttrMap := fun s =>
  if s = "defending" then some 90 else if s = "physicality" then some 80
  else if s = "passing" then some 45 else if s = "pace" then some 50
  else if s = "shooting" then some 40 else if s = "dribbling" then some 40
  else none

/-- A concrete first-half oracle: one home goal at minute 10, no away
goals, zero yellow-card draws for both teams (the Poisson draw at rate 0),
one substitution per team at minutes 20 and 30. -/
def sampleOracle : ChunkOracle :=
  { nGoalsHome := 1, nGoalsAway := 0,
    goalMinHome := fun _ => 10, goalMinAway := fun _ => 1,
    nYellowHome := 0, nYellowAway := 0,
    yellowHome := fun _ => ⟨1, 1, 1⟩, yellowAway := fun _ => ⟨1, 1, 1⟩,
    redProb := 0.06,
    nSubsHome := 1, nSubsAway := 1,
    subMinHome := fun _ => 20, subMinAway := fun _ => 30,
    extra := 3 }

/-- Possession jitter oracle drawing 0 every time. -/
def zeroJitter : ℕ → ℚ := fun _ => 0

/-- Per-minute draw oracle for `SimpleTacticalMatch` drawing 0 every time. -/
def zeroDraws : ℕ → MinuteDraws := fun _ => ⟨0, 0, 0, 0, 0, 0⟩

/-- A freshly constructed `MatchService` session: `_is_half_time` false,
score 0-0, zeroed stats. -/
def freshMSSession : MSSession := ⟨false, ⟨⟨0, 0⟩, initStats⟩⟩

/-- An engine event dictionary placing a shot-on-target event one minute
before the shot event it belongs with. -/
def engDictSample : List (ℕ × List String) := [(1, ["Target_Home"]), (2, ["Shots_Home"])]

/-- Zeroed engine stats context. -/
def engStats0 : EngStats := ⟨⟨0, 0, 0, 0⟩, ⟨0, 0, 0, 0⟩⟩

/-! ## Theorems -/

/-- C1: the effect bands do not partition `[0,1]` at 0.40, 0.50 and 0.80.
The source's guards `0.50 <= tfs < 0.79` and `0.40 <= tfs < 0.49` leave
the gaps `[0.79, 0.80)` and `[0.49, 0.50)`, which fall into the final
else branch and receive full penalty 1.0 - contradicting both the claim
and the source's own `else: # tfs < 0.40` comment.  At tfs = 0.79 the
claimed band gives positive effect `(0.79-0.5)/0.3` and penalty 0; at
tfs = 0.49 it gives penalty `(0.5-0.49)/0.1 = 0.1`; the code returns
penalty 1.0 at both.  For reference, 0.80 and 0.45 behave as claimed. -/
theorem C1_effect_band_gap :
    calculateTeamEffects 0.79 = ⟨0, 0, 1⟩ ∧
    calculateTeamEffects 0.49 = ⟨0, 0, 1⟩ ∧
    calculateTeamEffects 0.80 = ⟨1, 1, 0⟩ ∧
    calculateTeamEffects 0.45 = ⟨0, 0, 1/2⟩ := by
  refine ⟨?_, ?_, ?_, ?_⟩ <;> norm_num [calculateTeamEffects]

/-- The home `goal_probability` entry unfolds, by computation, to the
spec's formula over home-side quantities only. -/
theorem lookupEff_home_goalProb (stats : StatsTable) (h a : ℚ) (ht awayTac : String) :
    lookupEff (calculate_match_effects stats h a ht awayTac).1 "goal_probability" =
      some (homeShotsFor stats ht / 90 *
        (homeTargetFor stats ht / homeShotsFor stats ht) *
        (1 + (calculateTeamEffects h).positive_effect) *
        (1 - (calculateTeamEffects h).penalty)) := rfl

/-- The away `goal_probability` entry unfolds, by computation, to the
spec's formula over away-side quantities only. -/
theorem lookupEff_away_goalProb (stats : StatsTable) (h a : ℚ) (ht awayTac : String) :
    lookupEff (calculate_match_effects stats h a ht awayTac).2 "goal_probability" =
      some (awayShotsFor stats awayTac / 90 *
        (awayTargetFor stats awayTac / awayShotsFor stats awayTac) *
        (1 + (calculateTeamEffects a).positive_effect) *
        (1 - (calculateTeamEffects a).penalty)) := rfl

/-- C2: for every pair of fit scores and tactic names,
`calculate_match_effects` sets each team's `goal_probability` to
`(shots/90) * (target/shots) * (1 + own positive_effect) * (1 - own
penalty)`, and each team's whole effect dict is independent of the
opponent's fit score - so the opponent's penalty never enters a team's
goal probability (self-penalizing-only invariant). -/
theorem C2_goal_probability_self_penalizing (h a h2 a2 : ℚ) (ht awayTac : String) :
    lookupEff (calculate_match_effects defaultStats h a ht awayTac).1 "goal_probability" =
      some (homeShotsFor defaultStats ht / 90 *
        (homeTargetFor defaultStats ht / homeShotsFor defaultStats ht) *
        (1 + (calculateTeamEffects h).positive_effect) *
        (1 - (calculateTeamEffects h).penalty)) ∧
    lookupEff (calculate_match_effects defaultStats h a ht awayTac).2 "goal_probability" =
      some (awayShotsFor defaultStats awayTac / 90 *
        (awayTargetFor defaultStats awayTac / awayShotsFor defaultStats awayTac) *
        (1 + (calculateTeamEffects a).positive_effect) *
        (1 - (calculateTeamEffects a).penalty)) ∧
    (calculate_match_effects defaultStats h a ht awayTac).1 =
      (calculate_match_effects defaultStats h a2 ht awayTac).1 ∧
    (calculate_match_effects defaultStats h a ht awayTac).2 =
      (calculate_match_effects defaultStats h2 a ht awayTac).2 :=
  ⟨lookupEff_home_goalProb defaultStats h a ht awayTac,
   lookupEff_away_goalProb defaultStats h a ht awayTac, rfl, rfl⟩

/-- Every target value in a tactic's requirement table lies in `[0,100]`. -/
theorem requiredAttributes_target_range (tactic : String) (p : String × ℤ)
    (hp : p ∈ requiredAttributes tactic) : 0 ≤ p.2 ∧ p.2 ≤ 100 := by
  simp only [requiredAttributes] at hp
  split_ifs at hp <;> simp at hp <;>
    rcases hp with rfl | rfl | rfl <;> norm_num

/-- A closeness score stays in `[0,1]` when both the attribute value (or
its default 50) and the target lie in `[0,100]`. -/
theorem attrScore_bounds (attrs : AttrMap) (a : String) (tgt : ℤ)
    (hv : ∀ v, attrs a = some v → 0 ≤ v ∧ v ≤ 100)
    (ht : 0 ≤ tgt ∧ tgt ≤ 100) :
    0 ≤ attrScore attrs a tgt ∧ attrScore attrs a tgt ≤ 1 := by
  have hv2 : 0 ≤ (attrs a).getD 50 ∧ (attrs a).getD 50 ≤ 100 := by
    cases h : attrs a with
    | none => norm_num
    | some v => simpa using hv v h
  unfold attrScore
  have habs : (((attrs a).getD 50 - tgt).natAbs : ℤ) ≤ 100 := by omega
  have habsQ : ((((attrs a).getD 50 - tgt).natAbs : ℕ) : ℚ) ≤ 100 := by
    exact_mod_cast habs
  have h0 : (0 : ℚ) ≤ ((((attrs a).getD 50 - tgt).natAbs : ℕ) : ℚ) := by positivity
  constructor <;> [linarith; linarith]

/-- The summed closeness scores over a requirement list lie between 0 and
the list length, when every entry's score lies in `[0,1]`. -/
theorem fitSum_bounds (attrs : AttrMap)
    (hv : ∀ a v, attrs a = some v → 0 ≤ v ∧ v ≤ 100) :
    ∀ l : List (String × ℤ), (∀ p ∈ l, 0 ≤ p.2 ∧ p.2 ≤ 100) →
      0 ≤ (l.map fun p => attrScore attrs p.1 p.2).sum ∧
      (l.map fun p => attrScore attrs p.1 p.2).sum ≤ (l.length : ℚ) := by
  intro l
  induction l with
  | nil => intro; simp
  | cons p rest ih =>
    intro hall
    have hp := attrScore_bounds attrs p.1 p.2 (hv p.1) (hall p (by simp))
    have hr := ih (fun q hq => hall q (List.mem_cons_of_mem p hq))
    simp only [List.map_cons, List.sum_cons, List.length_cons]
    push_cast
    constructor <;> linarith [hp.1, hp.2, hr.1, hr.2]

/-- C5 (amended): for every attribute map whose present values lie in the
nominal 0-100 range and every tactic name, `calculate_tactical_fit`
returns a value in `[0,1]` (absent attributes default to 50, which is in
range; unknown tactics yield 0). -/
theorem C5_fit_in_unit_interval (attrs : AttrMap) (tactic : String)
    (hv : ∀ a v, attrs a = some v → 0 ≤ v ∧ v ≤ 100) :
    0 ≤ calculate_tactical_fit attrs tactic ∧
    calculate_tactical_fit attrs tactic ≤ 1 := by
  unfold calculate_tactical_fit
  by_cases hlen : 0 < (requiredAttributes tactic).length
  · have hb := fitSum_bounds attrs hv (requiredAttributes tactic)
      (fun p hp => requiredAttributes_target_range tactic p hp)
    have hlenQ : (0 : ℚ) < ((requiredAttributes tactic).length : ℚ) := by
      exact_mod_cast hlen
    simp only [hlen, if_true]
    constructor
    · exact div_nonneg hb.1 hlenQ.le
    · rw [div_le_one hlenQ]
      exact hb.2
  · simp [hlen]

/-- C5 witness: the theorem applied to the all-50 attribute map and
tiki-taka. -/
theorem C5_fit_in_unit_interval_witness :
    0 ≤ calculate_tactical_fit attrsAll50 "tiki-taka" ∧
    calculate_tactical_fit attrsAll50 "tiki-taka" ≤ 1 :=
  C5_fit_in_unit_interval attrsAll50 "tiki-taka"
    (fun a v h => by
      have : (50 : ℤ) = v := Option.some.inj h
      omega)

/-- C5 counterexample: with unclamped inputs, as the claim demands, the
result leaves `[0,1]`: the all-250 attribute map on tiki-taka gives fit
`-3/4 < 0` (each closeness score `1 - abs(250-target)/100` is negative). -/
theorem C5_unclamped_fit_negative :
    calculate_tactical_fit attrsAll250 "tiki-taka" < 0 := by
  have hreq : requiredAttributes "tiki-taka" =
      [("passing", 90), ("dribbling", 75), ("pace", 60)] := rfl
  have h1 : (((250 : ℤ) - 90).natAbs : ℚ) = 160 := rfl
  have h2 : (((250 : ℤ) - 75).natAbs : ℚ) = 175 := rfl
  have h3 : (((250 : ℤ) - 60).natAbs : ℚ) = 190 := rfl
  simp only [calculate_tactical_fit, hreq, attrScore, attrsAll250, Option.getD_some,
    List.map_cons, List.map_nil, List.sum_cons, List.sum_nil, List.length_cons,
    List.length_nil, h1, h2, h3]
  norm_num

/-- C9 (amended): in the spec's end-to-end scenario the home fit score is
at least 0.8 (it is exactly 1), the away fit score is also exactly 1 -
the away attributes coincide with park-the-bus's targets, so it is not
mid-to-low - and the home goal probability still exceeds the away goal
probability (704/5625 versus 437/5000). -/
theorem C9_scenario_amended :
    0.8 ≤ calculate_tactical_fit scenarioHomeAttrs "tiki-taka" ∧
    calculate_tactical_fit scenarioAwayAttrs "park-the-bus" = 1 ∧
    (lookupEff (calculate_match_effects defaultStats
        (calculate_tactical_fit scenarioHomeAttrs "tiki-taka")
        (calculate_tactical_fit scenarioAwayAttrs "park-the-bus")
        "tiki-taka" "park-the-bus").1 "goal_probability").getD 0 >
      (lookupEff (calculate_match_effects defaultStats
        (calculate_tactical_fit scenarioHomeAttrs "tiki-taka")
        (calculate_tactical_fit scenarioAwayAttrs "park-the-bus")
        "tiki-taka" "park-the-bus").2 "goal_probability").getD 0 := by
  have hH : calculate_tactical_fit scenarioHomeAttrs "tiki-taka" = 1 := by
    have hreq : requiredAttributes "tiki-taka" =
        [("passing", 90), ("dribbling", 75), ("pace", 60)] := rfl
    have e1 : ((((scenarioHomeAttrs "passing").getD 50 - 90).natAbs : ℕ) : ℚ) = 0 := rfl
    have e2 : ((((scenarioHomeAttrs "dribbling").getD 50 - 75).natAbs : ℕ) : ℚ) = 0 := rfl
    have e3 : ((((scenarioHomeAttrs "pace").getD 50 - 60).natAbs : ℕ) : ℚ) = 0 := rfl
    simp only [calculate_tactical_fit, hreq, attrScore, List.map_cons, List.map_nil,
      List.sum_cons, List.sum_nil, List.length_cons, List.length_nil, e1, e2, e3]
    norm_num
  have hA : calculate_tactical_fit scenarioAwayAttrs "park-the-bus" = 1 := by
    have hreq : requiredAttributes "park-the-bus" =
        [("defending", 90), ("physicality", 80), ("passing", 45)] := rfl
    have e1 : ((((scenarioAwayAttrs "defending").getD 50 - 90).natAbs : ℕ) : ℚ) = 0 := rfl
    have e2 : ((((scenarioAwayAttrs "physicality").getD 50 - 80).natAbs : ℕ) : ℚ) = 0 := rfl
    have e3 : ((((scenarioAwayAttrs "passing").getD 50 - 45).natAbs : ℕ) : ℚ) = 0 := rfl
    simp only [calculate_tactical_fit, hreq, attrScore, List.map_cons, List.map_nil,
      List.sum_cons, List.sum_nil, List.length_cons, List.length_nil, e1, e2, e3]
    norm_num
  refine ⟨by rw [hH]; norm_num, hA, ?_⟩
  rw [hH, hA, lookupEff_home_goalProb, lookupEff_away_goalProb]
  have hTiki : homeDelta "tiki-taka" = ⟨0.08, 0.10, 0.12, -0.05⟩ := rfl
  have hBus : awayDelta "park-the-bus" = ⟨-0.05, -0.05, -0.05, -0.10⟩ := rfl
  have hOne : calculateTeamEffects 1 = ⟨1, 1, 0⟩ := by
    norm_num [calculateTeamEffects]
  simp only [homeShotsFor, homeTargetFor, awayShotsFor, awayTargetFor, hTiki, hBus,
    hOne, defaultStats, Option.getD_some]
  norm_num

/-- C9 counterexample: the claim calls the away fit score mid-to-low (not
high), but the scenario's away attributes equal park-the-bus's target
values exactly, so the away fit score is the maximal 1.0 - at least as
high as the home score's claimed 0.8 threshold. -/
theorem C9_away_fit_is_maximal :
    calculate_tactical_fit scenarioAwayAttrs "park-the-bus" = 1 ∧
    ¬ calculate_tactical_fit scenarioAwayAttrs "park-the-bus" < 0.8 := by
  have hA : calculate_tactical_fit scenarioAwayAttrs "park-the-bus" = 1 := by
    have hreq : requiredAttributes "park-the-bus" =
        [("defending", 90), ("physicality", 80), ("passing", 45)] := rfl
    have e1 : ((((scenarioAwayAttrs "defending").getD 50 - 90).natAbs : ℕ) : ℚ) = 0 := rfl
    have e2 : ((((scenarioAwayAttrs "physicality").getD 50 - 80).natAbs : ℕ) : ℚ) = 0 := rfl
    have e3 : ((((scenarioAwayAttrs "passing").getD 50 - 45).natAbs : ℕ) : ℚ) = 0 := rfl
    simp only [calculate_tactical_fit, hreq, attrScore, List.map_cons, List.map_nil,
      List.sum_cons, List.sum_nil, List.length_cons, List.length_nil, e1, e2, e3]
    norm_num
  rw [hA]
  norm_num

/-- The effect dicts built by `calculate_match_effects` carry no
`yellow_card_probability` key (home side). -/
theorem lookupEff_home_yellow_none (stats : StatsTable) (h a : ℚ) (ht awayTac : String) :
    lookupEff (calculate_match_effects stats h a ht awayTac).1 "yellow_card_probability" =
      none := rfl

/-- The effect dicts built by `calculate_match_effects` carry no
`yellow_card_probability` key (away side). -/
theorem lookupEff_away_yellow_none (stats : StatsTable) (h a : ℚ) (ht awayTac : String) :
    lookupEff (calculate_match_effects stats h a ht awayTac).2 "yellow_card_probability" =
      none := rfl

/-- Streaming the first half of any `SimpleTacticalMatch` raises the
yellow-card `KeyError` during generation, whatever the inputs and draws. -/
theorem simpleFirstHalfFails (hA aA : AttrMap) (ht awayTac : String)
    (o : ℕ → MinuteDraws) :
    simpleStreamFirstHalf (mkSimpleSession hA aA ht awayTac) o =
      Except.error (PyErr.keyError "yellow_card_probability") := rfl

/-- Streaming the second half of a fresh `SimpleTacticalMatch` raises the
yellow-card `KeyError` during generation, whatever the inputs and draws. -/
theorem simpleSecondHalfFails (hA aA : AttrMap) (ht awayTac : String)
    (o : ℕ → MinuteDraws) :
    simpleStreamSecondHalf (mkSimpleSession hA aA ht awayTac) o =
      Except.error (PyErr.keyError "yellow_card_probability") := rfl

/-- C10: for every pair of attribute maps and tactic names and every draw
oracle, the effect dicts produced by `calculate_match_effects` hold only
the eight keys `positive_effect`, `negative_effect`, `penalty`, `shots`,
`target`, `corners`, `fouls` and `goal_probability`, so the
`yellow_card_probability` lookup in
`SimpleTacticalMatch._generate_events_for_minute` finds nothing and
streaming either half of a `SimpleTacticalMatch` fails with that
`KeyError` before any card event can be emitted. -/
theorem C10_card_probability_keys_missing (hA aA : AttrMap) (ht awayTac : String)
    (o : ℕ → MinuteDraws) :
    lookupEff (mkSimpleSession hA aA ht awayTac).homeEffects "yellow_card_probability"
      = none ∧
    lookupEff (mkSimpleSession hA aA ht awayTac).awayEffects "yellow_card_probability"
      = none ∧
    simpleStreamFirstHalf (mkSimpleSession hA aA ht awayTac) o =
      Except.error (PyErr.keyError "yellow_card_probability") ∧
    simpleStreamSecondHalf (mkSimpleSession hA aA ht awayTac) o =
      Except.error (PyErr.keyError "yellow_card_probability") :=
  ⟨lookupEff_home_yellow_none defaultStats
      (calculate_tactical_fit hA ht) (calculate_tactical_fit aA awayTac) ht awayTac,
   lookupEff_away_yellow_none defaultStats
      (calculate_tactical_fit hA ht) (calculate_tactical_fit aA awayTac) ht awayTac,
   simpleFirstHalfFails hA aA ht awayTac o,
   simpleSecondHalfFails hA aA ht awayTac o⟩

/-- C4 (amended): `MatchService.stream_second_half` raises the state error
on every session whose `_is_half_time` flag is still false, before
generating anything; but the claim does not extend to every session type:
`SimpleTacticalMatch.stream_second_half` performs no such check and goes
straight into generation (where it dies with a `KeyError` instead). -/
theorem C4_second_half_guard :
    (∀ (sess : MSSession) (o : ChunkOracle) (P : MSParams) (jit : ℕ → ℚ),
        sess.isHalfTime = false →
        msStreamSecondHalf sess o P jit = Except.error PyErr.stateError) ∧
    (∀ (hA aA : AttrMap) (ht awayTac : String) (o : ℕ → MinuteDraws),
        simpleStreamSecondHalf (mkSimpleSession hA aA ht awayTac) o ≠
          Except.error PyErr.stateError) := by
  constructor
  · intro sess o P jit h
    simp [msStreamSecondHalf, h]
  · intro hA aA ht awayTac o
    rw [simpleSecondHalfFails hA aA ht awayTac o]
    simp

/-- C4 witness: the guard theorem applied to a freshly constructed
`MatchService` session. -/
theorem C4_second_half_guard_witness :
    msStreamSecondHalf freshMSSession sampleOracle defaultMSParams zeroJitter =
      Except.error PyErr.stateError :=
  C4_second_half_guard.1 freshMSSession sampleOracle defaultMSParams zeroJitter rfl

/-- C4 counterexample: the claim as stated - a state error on every
freshly constructed session - fails on `SimpleTacticalMatch`: calling
`stream_second_half` on a fresh session with the scenario teams does not
raise the state error; it generates the second half at once and dies with
the `KeyError` of the missing card-probability key. -/
theorem C4_simple_session_no_state_error :
    simpleStreamSecondHalf
        (mkSimpleSession scenarioHomeAttrs scenarioAwayAttrs "tiki-taka" "park-the-bus")
        zeroDraws = Except.error (PyErr.keyError "yellow_card_probability") ∧
    PyErr.keyError "yellow_card_probability" ≠ PyErr.stateError := by
  refine ⟨rfl, by simp⟩

/-- C3: the running score does not match the goals emitted so far; goals
are double-counted between generation and streaming.  With a first-half
chunk holding a single home goal at minute 10 (plus the usual markers and
substitutions), `_generate_timeline_chunk` already advances
`_current_score` to 1-0, so the minute-1 update reports 1-0 before any
goal event is emitted, and `_update_stats` then adds the same goal again
at streaming time, leaving `_current_score` at 2-0 although exactly one
home goal event was emitted. -/
theorem C3_score_double_count :
    scoreConsistent (firstHalfPipeline sampleOracle defaultMSParams zeroJitter).1
      = false ∧
    (firstHalfPipeline sampleOracle defaultMSParams zeroJitter).1.head? =
      some (StreamOut.minuteUpdate 1 ⟨1, 0⟩ initStats) ∧
    (firstHalfPipeline sampleOracle defaultMSParams zeroJitter).2.score = ⟨2, 0⟩ ∧
    emittedGoals (firstHalfPipeline sampleOracle defaultMSParams zeroJitter).1 =
      ⟨1, 0⟩ := by
  exact ⟨by decide, rfl, by decide, by decide⟩

/-- C6 (amended): in `MatchService` every stats state produced by
`_update_stats` satisfies `shotsOnTarget <= shots` for both teams - the
final `_normalize_stats` clamp enforces it whatever the event, parameters
and jitter - and the initial stats satisfy it too.  (The claim does not
hold for `MatchEngineService.generate_simple_events`, see the
counterexample.) -/
theorem C6_sot_le_shots (P : MSParams) (jitter : ℚ) (ev : MEvent) (st : MSState) :
    (updateStats P jitter ev st).stats.home.shotsOnTarget ≤
      (updateStats P jitter ev st).stats.home.shots ∧
    (updateStats P jitter ev st).stats.away.shotsOnTarget ≤
      (updateStats P jitter ev st).stats.away.shots ∧
    initStats.home.shotsOnTarget ≤ initStats.home.shots ∧
    initStats.away.shotsOnTarget ≤ initStats.away.shots := by
  refine ⟨?_, ?_, le_refl 0, le_refl 0⟩ <;>
    simp only [updateStats, normalizeStats] <;>
    exact min_le_right _ _

/-- C6 counterexample: `MatchEngineService.generate_simple_events` applies
shot and target counter updates independently in the random minute order
`simulate_half` assigned, so an event dictionary placing a `Target_Home`
at minute 1 and its `Shots_Home` at minute 2 produces a snapshot with
`shotsOnTarget = 1 > shots = 0` for the home team. -/
theorem C6_engine_target_before_shot :
    engSotOk (engGenerateSimpleEvents engDictSample ⟨0, 0⟩ engStats0) = false := by
  decide

/-- Clamping a value and its complement to 100 into `[0,100]` always sums
back to 100. -/
theorem clamp100_sum (q : ℚ) : clamp100 q + clamp100 (100 - q) = 100 := by
  simp only [clamp100, max_def, min_def]
  split_ifs <;> linarith

/-- C7 (amended): every stats state produced by `_update_stats` has the
two possession figures summing to exactly 100, for every parameter set,
jitter draw and event: the update sets home possession to baseline plus
jitter, derives away by subtraction, and the independent clamps of
`_normalize_stats` preserve the sum.  (Snapshots emitted before the first
processed event carry the initial 0/0 stats instead - see the
counterexample.) -/
theorem C7_possession_sums_to_100 (P : MSParams) (jitter : ℚ) (ev : MEvent)
    (st : MSState) : possSum (updateStats P jitter ev st).stats = 100 := by
  obtain ⟨m, t, ty⟩ := ev
  cases ty <;> cases t <;>
    simp only [updateStats, normalizeStats, onSide, progressiveStats, possSum] <;>
    exact clamp100_sum _

/-- C7 counterexample: the first streamed line of a fresh first half is a
minute update carrying the initial stats, whose possessions are 0 and 0 -
their sum is 0, not 100, so the claim fails at the snapshots emitted
before the first event is processed. -/
theorem C7_initial_snapshot_sum_zero :
    (firstHalfPipeline sampleOracle defaultMSParams zeroJitter).1.head? =
      some (StreamOut.minuteUpdate 1 ⟨1, 0⟩ initStats) ∧
    possSum initStats = 0 ∧ (0 : ℚ) ≠ 100 := by
  refine ⟨rfl, ?_, by norm_num⟩
  simp [possSum, initStats]

/-- Membership through stable insertion. -/
theorem mem_insertByKey {α : Type} (key : α → ℕ) (e a : α) :
    ∀ l : List α, a ∈ insertByKey key e l ↔ a = e ∨ a ∈ l := by
  intro l
  induction l with
  | nil => simp [insertByKey]
  | cons x xs ih =>
    simp only [insertByKey]
    split_ifs with h
    · simp only [List.mem_cons, ih]
      tauto
    · simp only [List.mem_cons]

/-- Membership through the sorting fold, generalized over the
accumulator. -/
theorem mem_sortByKey_aux {α : Type} (key : α → ℕ) :
    ∀ (l acc : List α) (a : α),
      a ∈ List.foldl (fun acc e => insertByKey key e acc) acc l →
      a ∈ acc ∨ a ∈ l := by
  intro l
  induction l with
  | nil => intro acc a h; exact Or.inl h
  | cons x xs ih =>
    intro acc a h
    simp only [List.foldl_cons] at h
    rcases ih (insertByKey key x acc) a h with h2 | h2
    · rcases (mem_insertByKey key x a acc).mp h2 with h3 | h3
      · exact Or.inr (by simp [h3])
      · exact Or.inl h3
    · exact Or.inr (List.mem_cons_of_mem x h2)

/-- An element of the stable sort came from the input list. -/
theorem mem_sortByKey {α : Type} (key : α → ℕ) (l : List α) (a : α)
    (h : a ∈ sortByKey key l) : a ∈ l := by
  rcases mem_sortByKey_aux key l [] a h with h2 | h2
  · cases h2
  · exact h2

/-- Attaching running scores only pairs each event with a score: the
event component of every output pair is an input event. -/
theorem attachScores_fst (p : MEvent × Score) :
    ∀ (l : List MEvent) (sc : Score), p ∈ (attachScores l sc).1 → p.1 ∈ l := by
  intro l
  induction l with
  | nil => intro sc hp; cases hp
  | cons e rest ih =>
    intro sc hp
    simp only [attachScores, List.mem_cons] at hp
    rcases hp with rfl | hp
    · exact List.mem_cons_self e rest
    · exact List.mem_cons_of_mem e (ih _ hp)

/-- Every event produced by the goal simulator is a goal. -/
theorem simulateGoalsTeam_etype (t : Team) :
    ∀ (n : ℕ) (mins : ℕ → ℕ) (e : MEvent),
      e ∈ simulateGoalsTeam t mins n → e.etype = EType.goal := by
  intro n
  induction n with
  | zero => intro mins e h; cases h
  | succ k ih =>
    intro mins e h
    simp only [simulateGoalsTeam, List.mem_cons] at h
    rcases h with rfl | h
    · rfl
    · exact ih _ e h

/-- Every event produced by the substitution simulator is a
substitution. -/
theorem simulateSubsTeam_etype (t : Team) :
    ∀ (n : ℕ) (mins : ℕ → ℕ) (e : MEvent),
      e ∈ simulateSubsTeam t mins n → e.etype = EType.substitution := by
  intro n
  induction n with
  | zero => intro mins e h; cases h
  | succ k ih =>
    intro mins e h
    simp only [simulateSubsTeam, List.mem_cons] at h
    rcases h with rfl | h
    · rfl
    · exact ih _ e h

/-- Membership in a conditional singleton list forces equality. -/
theorem mem_ite_singleton {c : Prop} [Decidable c] {x a : MEvent}
    (h : a ∈ if c then [x] else []) : a = x := by
  split_ifs at h <;> simp_all

/-- The event-mapping table of `generate_simple_events` never yields the
red-card type (there is no `Red_Home`/`Red_Away` entry). -/
theorem engEventInfo_ne_red (s : String) (p : String × Team)
    (hp : engEventInfo s = some p) : p.1 ≠ "red_card" := by
  unfold engEventInfo at hp
  split_ifs at hp
  all_goals first
    | exact Option.noConfusion hp
    | (obtain rfl : p = _ := (Option.some.inj hp).symm
       simp)

/-- No red-card line comes out of one minute's mapped events. -/
theorem engMinuteEvents_noRed (m : ℕ) :
    ∀ (l : List String) (sc : Score) (st : EngStats),
      ∀ o ∈ (engMinuteEvents m l sc st).1, engTypeOf o ≠ "red_card" := by
  intro l
  induction l with
  | nil => intro sc st o ho; cases ho
  | cons s rest ih =>
    intro sc st o ho
    cases hinfo : engEventInfo s with
    | none =>
      simp only [engMinuteEvents, hinfo] at ho
      exact ih _ _ o ho
    | some p =>
      obtain ⟨ty, tm⟩ := p
      simp only [engMinuteEvents, hinfo, List.mem_cons] at ho
      rcases ho with rfl | ho
      · simpa [engTypeOf] using engEventInfo_ne_red s (ty, tm) hinfo
      · exact ih _ _ o ho

/-- No red-card line comes out of the engine's whole event walk. -/
theorem engGenerateAux_noRed :
    ∀ (l : List (ℕ × List String)) (sc : Score) (st : EngStats),
      engNoRed (engGenerateAux l sc st) := by
  intro l
  induction l with
  | nil => intro sc st o ho; cases ho
  | cons p rest ih =>
    intro sc st o ho
    obtain ⟨minute, strs⟩ := p
    simp only [engGenerateAux] at ho
    rcases List.mem_append.mp ho with ho | ho
    · rcases List.mem_append.mp ho with ho | ho
      · exact engMinuteEvents_noRed minute strs sc st o ho
      · rcases List.mem_cons.mp ho with rfl | ho
        · simp [engTypeOf]
        · revert ho
          split_ifs <;> intro ho <;>
            simp only [List.mem_cons, List.not_mem_nil, or_false] at ho <;>
            subst ho <;> simp [engTypeOf]
    · exact ih _ _ o ho

/-- C8: with both yellow-card counts forced to zero (the Poisson draw at
rate lambda = 0 is identically zero), a generated `MatchService` timeline
chunk contains no red-card event - reds are appended only inside the
yellow-card loop - and, independently, `generate_simple_events` never
emits a red-card line for any event dictionary, since its mapping table
has no red entries. -/
theorem C8_no_red_without_yellow :
    (∀ (o : ChunkOracle) (s e : ℕ) (sc : Score),
        o.nYellowHome = 0 → o.nYellowAway = 0 →
        chunkNoRed (generateChunk o s e sc).1) ∧
    (∀ (d : List (ℕ × List String)) (sc : Score) (st : EngStats),
        engNoRed (engGenerateSimpleEvents d sc st)) := by
  constructor
  · intro o s e sc hH hA p hp
    have h1 : p.1 ∈ sortByKey MEvent.minute (rawChunkEvents o s e) :=
      attachScores_fst p _ _ hp
    have h2 : p.1 ∈ rawChunkEvents o s e := mem_sortByKey _ _ _ h1
    unfold rawChunkEvents at h2
    rw [hH, hA] at h2
    simp only [List.mem_append] at h2
    rcases h2 with ((((((h | h) | h) | h) | h) | h) | h) | h
    · rw [simulateGoalsTeam_etype Team.home _ _ _ h]
      simp
    · rw [simulateGoalsTeam_etype Team.away _ _ _ h]
      simp
    · rw [show simulateYellowsTeam Team.home o.redProb o.yellowHome 0 = [] from rfl] at h
      cases h
    · rw [show simulateYellowsTeam Team.away o.redProb o.yellowAway 0 = [] from rfl] at h
      cases h
    · rw [simulateSubsTeam_etype Team.home _ _ _ h]
      simp
    · rw [simulateSubsTeam_etype Team.away _ _ _ h]
      simp
    · rw [mem_ite_singleton h]
      simp
    · rw [mem_ite_singleton h]
      simp
  · intro d sc st
    exact engGenerateAux_noRed _ sc st

/-- C8 witness: the theorem applied to the concrete zero-yellow oracle and
the concrete engine dictionary. -/
theorem C8_no_red_without_yellow_witness :
    chunkNoRed (generateChunk sampleOracle 0 45 ⟨0, 0⟩).1 ∧
    engNoRed (engGenerateSimpleEvents engDictSample ⟨0, 0⟩ engStats0) :=
  ⟨C8_no_red_without_yellow.1 sampleOracle 0 45 ⟨0, 0⟩ rfl rfl,
   C8_no_red_without_yellow.2 engDictSample ⟨0, 0⟩ engStats0⟩

end FootbAI
